import Mathlib

/-
Verification of the etherscan client library's response-envelope decoding
protocol and its numeric/boolean string-coercion layer.

The definitions below are a shallow embedding of the Rust sources:
  * `src/responses.rs`   — the REST envelope decoder (`Response<T>` visitor);
  * `src/proxy/mod.rs`   — the JSON-RPC envelope decoder (proxy `Response<T>` visitor);
  * `src/lib.rs`         — the string-coercion helpers (`de_u8_from_str`,
                           `de_u64_from_str`, `de_u128_from_str`, `de_bool_from_str`);
  * `src/accounts/mod.rs`, `src/gas_tracker/mod.rs` — the endpoint methods
                           `balance`, `balances` and `estimate_time`.

JSON values are modelled by an inductive `Json`; serde's streaming `MapAccess`
is modelled at entry granularity as a list of key/value pairs consumed in
order, which is exactly how `serde_json` presents a JSON object to the
visitors above.  A Rust `panic!` inside a visitor is modelled as a distinct
`panicked` outcome, since it aborts rather than returning an error value.
-/

namespace Etherscan

/-- JSON values (the shapes the explorer API emits). An object is a list of
key/value entries in source order, matching the streaming `MapAccess` view the
serde visitors consume. -/
inductive Json where
  | null : Json
  | bool (b : Bool) : Json
  | num (n : Int) : Json
  | str (s : String) : Json
  | arr (elems : List Json) : Json
  | obj (entries : List (String × Json)) : Json

/-- Serde deserialization errors as used by the visitors: `duplicate_field`,
`missing_field`, invalid-type errors from typed `next_value`, and
`de::Error::custom`.  The exact wording of serde's invalid-type message is not
load-bearing and is abstracted to the expected-type text. -/
inductive DeError where
  | duplicateField (name : String)
  | missingField (name : String)
  | invalidType (expected : String)
  | custom (msg : String)
deriving Repr, DecidableEq

/-- `ResponseStatus` from `src/responses.rs`. -/
inductive ResponseStatus where
  | Success : ResponseStatus
  | Failed : ResponseStatus
deriving Repr, DecidableEq

/-- `Response<T>` from `src/responses.rs`. -/
structure Response (τ : Type) where
  status : ResponseStatus
  message : String
  result : τ
deriving Repr, DecidableEq

/-- Outcome of running a deserialization visitor: a value, a serde error, or a
Rust `panic!` (which aborts instead of returning). -/
inductive Outcome (τ : Type) where
  | ok (r : Response τ) : Outcome τ
  | fail (e : DeError) : Outcome τ
  | panicked (msg : String) : Outcome τ
deriving Repr, DecidableEq

/-- `map.next_value::<String>()`: the current value must be a JSON string. -/
def Json.asString : Json → Except DeError String
  | .str s => .ok s
  | _ => .error (.invalidType "a string")

/-- The code after the `while` loop of `visit_map` in `src/responses.rs`:
each buffered field is required, with `missing_field` reported for the first
absent one (status, then message, then result). -/
def finalizeRest {τ : Type} :
    Option ResponseStatus → Option String → Option τ → Outcome τ
  | status, message, result =>
    match status with
    | none => .fail (.missingField "status")
    | some status =>
      match message with
      | none => .fail (.missingField "message")
      | some message =>
        match result with
        | none => .fail (.missingField "result")
        | some result => .ok ⟨status, message, result⟩

/-- Shallow embedding of the `visit_map` loop of `impl Deserialize for
Response<T>` in `src/responses.rs` (lines 39–106).  The three `Option`
arguments are the buffered `status`, `message` and `result` locals; `decT`
embeds `T::deserialize` on the current JSON value, failing with a message as
`serde` errors do. -/
def visitMapRest {τ : Type} (decT : Json → Except String τ) :
    List (String × Json) → Option ResponseStatus → Option String → Option τ → Outcome τ
  | [], status, message, result => finalizeRest status message result
  | (key, value) :: rest, status, message, result =>
    if key = "status" then
      if status.isSome then .fail (.duplicateField "status")
      else
        match value.asString with
        | .error e => .fail e
        | .ok s =>
          if s = "1" then visitMapRest decT rest (some .Success) message result
          else if s = "0" then visitMapRest decT rest (some .Failed) message result
          else .panicked ("Unknown value: " ++ s)
    else if key = "message" then
      if message.isSome then .fail (.duplicateField "message")
      else
        match value.asString with
        | .error e => .fail e
        | .ok m =>
          if status = some ResponseStatus.Failed ∧ m = "NOTOK" then
            -- "Get message from next value": `map.next_entry::<(String, String)>()?`;
            -- when the map is exhausted the loop simply terminates
            match rest with
            | [] => finalizeRest status (some m) result
            | (_, v2) :: _ =>
              match v2.asString with
              | .error e => .fail e
              | .ok v => .fail (.custom v)
          else visitMapRest decT rest status (some m) result
    else if key = "result" then
      if result.isSome then .fail (.duplicateField "result")
      else if status.isNone then .fail (.custom "status not deserialised yet")
      else if status = some ResponseStatus.Failed ∧ message.isSome ∧
          message ≠ some "No transactions found" then
        -- "Return result message as error if failed": `map.next_value::<String>()?`
        match value.asString with
        | .error e => .fail e
        | .ok v => .fail (.custom v)
      else
        match decT value with
        | .error e => .fail (.custom e)
        | .ok t => visitMapRest decT rest status message (some t)
    else
      -- `_ => {}`: unknown keys are skipped
      visitMapRest decT rest status message result

/-- Decoding a REST envelope (`Response<T>` in `src/responses.rs`): the
top-level JSON value must be an object, whose entries are then fed to the
visitor with empty buffers. -/
def decodeRest {τ : Type} (decT : Json → Except String τ) : Json → Outcome τ
  | .obj entries => visitMapRest decT entries none none none
  | _ => .fail (.invalidType "struct Response")

/-- `T::deserialize` for `T = String`, used where endpoints request
`get::<String>`. -/
def decodeString : Json → Except String String
  | .str s => .ok s
  | _ => .error "invalid type: expected a string"

/-- `T::deserialize` for `T = Vec<String>`, a simple concrete collection
decoder used to exercise the empty-result path. -/
def decodeStringList : Json → Except String (List String)
  | .arr elems =>
    elems.foldr
      (fun j acc =>
        match decodeString j, acc with
        | .ok s, .ok l => .ok (s :: l)
        | .error e, _ => .error e
        | _, .error e => .error e)
      (.ok [])
  | _ => .error "invalid type: expected a sequence"

/-- Modelled from the spec: the `RPCError` type used by `src/proxy/mod.rs` is
referenced from the crate root but its definition is not among these sources;
§6 of the spec gives it as a code/message pair (`code: i16`). -/
structure RPCError where
  code : Int
  message : String
deriving Repr, DecidableEq

/-- Modelled from the spec: the derived serde deserializer for `RPCError`
(field-by-field map visitor over the `code` and `message` fields, duplicate
fields rejected, unknown fields ignored, missing fields reported), with `code`
required to fit `i16` per §6. -/
def visitMapRPCError : List (String × Json) → Option Int → Option String →
    Except DeError RPCError
  | [], code, message =>
    match code with
    | none => .error (.missingField "code")
    | some code =>
      match message with
      | none => .error (.missingField "message")
      | some message => .ok ⟨code, message⟩
  | (key, value) :: rest, code, message =>
    if key = "code" then
      if code.isSome then .error (.duplicateField "code")
      else
        match value with
        | .num n =>
          if -32768 ≤ n ∧ n < 32768 then visitMapRPCError rest (some n) message
          else .error (.invalidType "i16")
        | _ => .error (.invalidType "an integer")
    else if key = "message" then
      if message.isSome then .error (.duplicateField "message")
      else
        match value.asString with
        | .error e => .error e
        | .ok m => visitMapRPCError rest code (some m)
    else visitMapRPCError rest code message

/-- `map.next_value::<RPCError>()` on a JSON value. -/
def decodeRPCError : Json → Except DeError RPCError
  | .obj entries => visitMapRPCError entries none none
  | _ => .error (.invalidType "struct RPCError")

/-- JSON string escaping as performed by `serde_json` when serializing a
string: quote, backslash and the short control escapes, `\u00XX` for the
remaining control characters. -/
def jsonEscapeChar (c : Char) : String :=
  if c = '"' then "\\\""
  else if c = '\\' then "\\\\"
  else if c = '\x08' then "\\b"
  else if c = '\x0c' then "\\f"
  else if c = '\n' then "\\n"
  else if c = '\r' then "\\r"
  else if c = '\t' then "\\t"
  else if c.toNat < 32 then
    "\\u00" ++ String.mk [Nat.digitChar (c.toNat / 16), Nat.digitChar (c.toNat % 16)]
  else String.singleton c

def jsonEscape (s : String) : String :=
  String.join (s.data.map jsonEscapeChar)

/-- Modelled from the spec: `serde_json::to_string` of an `RPCError` with its
two fields in declaration order, as interpolated into the error text by the
`ERROR` branch of the proxy visitor. -/
def RPCError.toJsonString (e : RPCError) : String :=
  "\x7b\"code\":" ++ toString e.code ++ ",\"message\":\"" ++ jsonEscape e.message ++ "\"\x7d"

/-- The proxy module's `Response<T>` (`src/proxy/mod.rs` lines 280–286): only
`id`, `jsonrpc` and `result` are retained. -/
structure ProxyResponse (τ : Type) where
  id : Nat
  json_rpc : String
  result : τ
deriving Repr, DecidableEq

/-- Outcome of the proxy visitor. -/
inductive ProxyOutcome (τ : Type) where
  | ok (r : ProxyResponse τ) : ProxyOutcome τ
  | fail (e : DeError) : ProxyOutcome τ
  | panicked (msg : String) : ProxyOutcome τ
deriving Repr, DecidableEq

/-- `map.next_value::<u32>()`: a JSON number within `u32` range. -/
def Json.asU32 : Json → Except DeError Nat
  | .num n => if 0 ≤ n ∧ n < 4294967296 then .ok n.toNat else .error (.invalidType "u32")
  | _ => .error (.invalidType "u32")

/-- The code after the `while` loop of the proxy `visit_map`
(`src/proxy/mod.rs` lines 487–490): `id`, `jsonrpc` and `result` are required;
the buffered `status`/`message` are dropped. -/
def finalizeProxy {τ : Type} :
    Option Nat → Option String → Option τ → ProxyOutcome τ
  | id, jsonRpc, result =>
    match id with
    | none => .fail (.missingField "id")
    | some id =>
      match jsonRpc with
      | none => .fail (.missingField "jsonrpc")
      | some jsonRpc =>
        match result with
        | none => .fail (.missingField "result")
        | some result => .ok ⟨id, jsonRpc, result⟩

/-- Shallow embedding of the `visit_map` loop of the proxy
`impl Deserialize for Response<T>` in `src/proxy/mod.rs` (lines 407–486).
Unlike the REST visitor it buffers `id` and `jsonrpc`, classifies an `error`
entry immediately as an RPC error, and has no "status not deserialised yet"
guard on the `result` branch. -/
def visitMapProxy {τ : Type} (decT : Json → Except String τ) :
    List (String × Json) → Option Nat → Option String → Option τ →
    Option ResponseStatus → Option String → ProxyOutcome τ
  | [], id, jsonRpc, result, _status, _message => finalizeProxy id jsonRpc result
  | (key, value) :: rest, id, jsonRpc, result, status, message =>
    if key = "id" then
      if id.isSome then .fail (.duplicateField "id")
      else
        match value.asU32 with
        | .error e => .fail e
        | .ok n => visitMapProxy decT rest (some n) jsonRpc result status message
    else if key = "jsonrpc" then
      if jsonRpc.isSome then .fail (.duplicateField "jsonrpc")
      else
        match value.asString with
        | .error e => .fail e
        | .ok s => visitMapProxy decT rest id (some s) result status message
    else if key = "error" then
      match decodeRPCError value with
      | .error e => .fail e
      | .ok err => .fail (.custom ("rpc error:" ++ err.toJsonString))
    else if key = "status" then
      if status.isSome then .fail (.duplicateField "status")
      else
        match value.asString with
        | .error e => .fail e
        | .ok s =>
          if s = "1" then visitMapProxy decT rest id jsonRpc result (some .Success) message
          else if s = "0" then visitMapProxy decT rest id jsonRpc result (some .Failed) message
          else .panicked ("Unknown value: " ++ s)
    else if key = "message" then
      if message.isSome then .fail (.duplicateField "message")
      else
        match value.asString with
        | .error e => .fail e
        | .ok m =>
          if status = some ResponseStatus.Failed ∧ m = "NOTOK" then
            -- `map.next_entry::<(String, String)>()?`
            match rest with
            | [] => finalizeProxy id jsonRpc result
            | (_, v2) :: _ =>
              match v2.asString with
              | .error e => .fail e
              | .ok v => .fail (.custom v)
          else visitMapProxy decT rest id jsonRpc result status (some m)
    else if key = "result" then
      if result.isSome then .fail (.duplicateField "result")
      else if status = some ResponseStatus.Failed ∧ message.isSome ∧
          message ≠ some "No transactions found" then
        match value.asString with
        | .error e => .fail e
        | .ok v => .fail (.custom v)
      else
        match decT value with
        | .error e => .fail (.custom e)
        | .ok t => visitMapProxy decT rest id jsonRpc (some t) status message
    else
      -- `_ => { let _ = map.next_value::<()>(); }`: skip the entry
      visitMapProxy decT rest id jsonRpc result status message

/-- Decoding a JSON-RPC envelope (proxy `Response<T>` in `src/proxy/mod.rs`). -/
def decodeProxy {τ : Type} (decT : Json → Except String τ) : Json → ProxyOutcome τ
  | .obj entries => visitMapProxy decT entries none none none none none
  | _ => .fail (.invalidType "struct Response")

/-- Rust's `char::is_ascii_digit`, via code points: `'0'` is 48 and `'9'` is 57. -/
def isAsciiDigit (c : Char) : Bool :=
  48 ≤ c.toNat && c.toNat ≤ 57

/-- Numeric value of an ASCII digit. -/
def digitVal (c : Char) : Nat :=
  c.toNat - 48

/-- The accumulation loop of Rust's `str::parse::<uN>`: digits are folded in
base 10 with a checked multiply/add against the exclusive bound `2^N`;
a non-digit or an overflow aborts the parse. -/
def parseUintChars (bound : Nat) : List Char → Nat → Option Nat
  | [], acc => some acc
  | c :: cs, acc =>
    if isAsciiDigit c then
      if acc * 10 + digitVal c < bound then
        parseUintChars bound cs (acc * 10 + digitVal c)
      else none
    else none

/-- Rust's `str::parse::<uN>` for an unsigned width `w` (8/16/32/64/128 as
used by the coercion helpers in `src/lib.rs`): an optional leading `+`, then
one or more digits, value below `2^w`. -/
def parseUint (w : Nat) (s : String) : Option Nat :=
  let digits :=
    match s.data with
    | '+' :: rest => rest
    | l => l
  match digits with
  | [] => none
  | _ => parseUintChars (2 ^ w) digits 0

/-- The common shape of `de_u8_from_str` / `de_u64_from_str` /
`de_u128_from_str` in `src/lib.rs`: `String::deserialize` then
`str::parse::<uW>`, any parse failure surfaced via `de::Error::custom`
(the precise `ParseIntError` text is not modelled). -/
def deUintFromStr (w : Nat) (j : Json) : Except DeError Nat :=
  match j.asString with
  | .error e => .error e
  | .ok s =>
    match parseUint w s with
    | some v => .ok v
    | none => .error (.custom "invalid decimal string")

/-- `de_u8_from_str` (`src/lib.rs` lines 82–85). -/
def deU8FromStr : Json → Except DeError Nat := deUintFromStr 8

/-- `de_u64_from_str` (`src/lib.rs` lines 92–95). -/
def deU64FromStr : Json → Except DeError Nat := deUintFromStr 64

/-- `de_u128_from_str` (`src/lib.rs` lines 97–100). -/
def deU128FromStr : Json → Except DeError Nat := deUintFromStr 128

/-- `de_bool_from_str` (`src/lib.rs` lines 102–105): `String::deserialize`
then `Ok(str_val == "1")` — it never fails on a string input. -/
def deBoolFromStr (j : Json) : Except DeError Bool :=
  match j.asString with
  | .error e => .error e
  | .ok s => .ok (s == "1")

/-- Decimal digits of `n`, most significant first, computed with explicit
fuel so that the definition reduces; `n + 1` units of fuel always suffice. -/
def natDigitsFuel : Nat → Nat → List Char
  | 0, _ => []
  | fuel + 1, n =>
    if n < 10 then [Nat.digitChar n]
    else natDigitsFuel fuel (n / 10) ++ [Nat.digitChar (n % 10)]

/-- Rust's `uN::to_string`: the decimal representation, no leading zeros
(except for `0` itself). -/
def uintToString (n : Nat) : String :=
  String.mk (natDigitsFuel (n + 1) n)

/-- The base-10 value of a digit string, as accumulated left to right. -/
def digitsVal (l : List Char) : Nat :=
  l.foldl (fun a c => a * 10 + digitVal c) 0

/-- Canonicalization "modulo leading zeros": drop leading `'0'`s, keeping a
single `'0'` when nothing remains. -/
def stripLeadingZeros (s : String) : String :=
  match s.data.dropWhile (fun c => c = '0') with
  | [] => "0"
  | l => String.mk l

/-- `APIError` from `src/lib.rs` (lines 67–80); the `reqwest::Error` payload
of `TransportError` is abstracted to its message. -/
inductive APIError where
  | InvalidAPIKey (message : String)
  | RateLimitReached (message : String)
  | TooManyAddresses
  | TransportError (message : String)
deriving Repr, DecidableEq

/-- Modelled from the spec: the `Tag` block parameter referenced from the
crate root is not among these sources; endpoints only use `Tag::Latest` as the
default ("the pre-defined block parameter, which defaults to latest"). -/
inductive Tag where
  | Latest
deriving Repr, DecidableEq

def Tag.toQuery : Tag → String
  | .Latest => "latest"

/-- `Balance` from `src/accounts/mod.rs` (lines 417–423); addresses are kept
as strings. -/
structure Balance where
  account : String
  balance : Nat
deriving Repr, DecidableEq

/-- Query parameters built by `Accounts::balance` (`src/accounts/mod.rs`
lines 170–176). -/
def balanceParameters (address : String) (tag : Option Tag) : List (String × String) :=
  [("module", "account"), ("action", "balance"), ("address", address),
   ("tag", (tag.getD .Latest).toQuery)]

/-- `Accounts::balance` (`src/accounts/mod.rs` lines 170–178).  `fetch`
abstracts `self.get::<String>`: the HTTP round trip plus envelope decode,
yielding the decoded result string or a classified error.  The decoded string
is then parsed as `u128` with `unwrap_or(0)`. -/
def balance (fetch : List (String × String) → Except APIError String)
    (address : String) (tag : Option Tag) : Except APIError Nat :=
  (fetch (balanceParameters address tag)).map (fun v => (parseUint 128 v).getD 0)

/-- Query parameters built by `Accounts::balances` (`src/accounts/mod.rs`
lines 185–196): the addresses joined with commas. -/
def balancesParameters (addresses : List String) (tag : Option Tag) : List (String × String) :=
  [("module", "account"), ("action", "balancemulti"),
   ("address", String.intercalate "," addresses),
   ("tag", (tag.getD .Latest).toQuery)]

/-- `Accounts::balances` (`src/accounts/mod.rs` lines 180–199): more than 20
addresses short-circuits to `APIError::TooManyAddresses` before the request
is built; otherwise `self.get::<Vec<Balance>>` (abstracted by `fetch`) runs. -/
def balances (fetch : List (String × String) → Except APIError (List Balance))
    (addresses : List String) (tag : Option Tag) : Except APIError (List Balance) :=
  if addresses.length > 20 then .error .TooManyAddresses
  else fetch (balancesParameters addresses tag)

/-- Query parameters built by `GasTracker::estimate_time`
(`src/gas_tracker/mod.rs` line 33). -/
def estimateTimeParameters (gasPrice : Nat) : List (String × String) :=
  [("module", "gastracker"), ("action", "gasestimate"),
   ("gasprice", uintToString gasPrice)]

/-- `GasTracker::estimate_time` (`src/gas_tracker/mod.rs` lines 32–36):
`self.get::<String>` (abstracted by `fetch`), then `parse::<u64>()` with
`unwrap_or(0)`. -/
def estimateTime (fetch : List (String × String) → Except APIError String)
    (gasPrice : Nat) : Except APIError Nat :=
  match fetch (estimateTimeParameters gasPrice) with
  | .error e => .error e
  | .ok seconds => .ok ((parseUint 64 seconds).getD 0)


/-! ### Helper lemmas for the decimal round-trip -/

theorem char_eq_of_toNat_eq {a b : Char} (h : a.toNat = b.toNat) : a = b := by
  cases a with
  | mk av ah =>
    cases b with
    | mk bv bh =>
      simp only [Char.toNat] at h
      congr 1
      exact UInt32.eq_of_val_eq (Fin.ext h)

theorem digitChar_digitVal {c : Char} (h : isAsciiDigit c = true) :
    Nat.digitChar (digitVal c) = c := by
  simp only [isAsciiDigit, Bool.and_eq_true, decide_eq_true_eq] at h
  have h10 : c.toNat = 48 ∨ c.toNat = 49 ∨ c.toNat = 50 ∨ c.toNat = 51 ∨ c.toNat = 52 ∨
      c.toNat = 53 ∨ c.toNat = 54 ∨ c.toNat = 55 ∨ c.toNat = 56 ∨ c.toNat = 57 := by omega
  rcases h10 with h1 | h1 | h1 | h1 | h1 | h1 | h1 | h1 | h1 | h1 <;>
    (apply char_eq_of_toNat_eq; simp only [digitVal, h1]; decide)

theorem le_digits_foldl : ∀ (l : List Char) (a : Nat),
    a ≤ l.foldl (fun x c => x * 10 + digitVal c) a := by
  intro l
  induction l with
  | nil => intro a; simp
  | cons c cs ih =>
    intro a
    calc a ≤ a * 10 + digitVal c := by omega
    _ ≤ _ := by simpa using ih (a * 10 + digitVal c)

theorem parseUintChars_eq_foldl (bound : Nat) : ∀ (l : List Char) (a : Nat),
    (∀ c ∈ l, isAsciiDigit c = true) →
    l.foldl (fun x c => x * 10 + digitVal c) a < bound →
    parseUintChars bound l a = some (l.foldl (fun x c => x * 10 + digitVal c) a) := by
  intro l
  induction l with
  | nil => intro a _ _; simp [parseUintChars]
  | cons c cs ih =>
    intro a hdig hlt
    have hc : isAsciiDigit c = true := hdig c (by simp)
    have hstep : a * 10 + digitVal c < bound := by
      have := le_digits_foldl cs (a * 10 + digitVal c)
      simp only [List.foldl_cons] at hlt
      omega
    simp only [parseUintChars, hc, if_true, if_pos hstep, List.foldl_cons]
    exact ih (a * 10 + digitVal c) (fun x hx => hdig x (by simp [hx])) (by simpa using hlt)

theorem digitsVal_cons_zero (t : List Char) : digitsVal ('0' :: t) = digitsVal t := by
  simp [digitsVal, digitVal]

theorem digitsVal_dropWhile_zeros : ∀ l : List Char,
    digitsVal (l.dropWhile (fun c => c = '0')) = digitsVal l := by
  intro l
  induction l with
  | nil => rfl
  | cons c cs ih =>
    by_cases h : c = '0'
    · subst h
      rw [List.dropWhile_cons_of_pos (by simp), ih, digitsVal_cons_zero]
    · rw [List.dropWhile_cons_of_neg (by simpa using h)]

theorem dropWhile_head_false {p : Char → Bool} : ∀ (l : List Char) (c : Char) (t : List Char),
    List.dropWhile p l = c :: t → p c = false := by
  intro l
  induction l with
  | nil => intro c t h; simp [List.dropWhile] at h
  | cons x xs ih =>
    intro c t h
    by_cases hx : p x
    · rw [List.dropWhile_cons_of_pos hx] at h
      exact ih c t h
    · rw [List.dropWhile_cons_of_neg hx] at h
      cases h
      simpa using hx

theorem mem_dropWhile {p : Char → Bool} : ∀ (l : List Char) (c : Char),
    c ∈ List.dropWhile p l → c ∈ l := by
  intro l
  induction l with
  | nil => intro c h; simp [List.dropWhile] at h
  | cons x xs ih =>
    intro c h
    by_cases hx : p x
    · rw [List.dropWhile_cons_of_pos hx] at h
      exact List.mem_cons_of_mem x (ih c h)
    · rw [List.dropWhile_cons_of_neg hx] at h
      exact h

theorem one_le_digitsVal {c : Char} {t : List Char}
    (hc : isAsciiDigit c = true) (h0 : c ≠ '0') : 1 ≤ digitsVal (c :: t) := by
  have h48 : 48 ≤ c.toNat ∧ c.toNat ≤ 57 := by
    simpa [isAsciiDigit, Bool.and_eq_true, decide_eq_true_eq] using hc
  have hne : c.toNat ≠ 48 := by
    intro h
    exact h0 (char_eq_of_toNat_eq (by rw [h]; decide))
  have h1 : 1 ≤ digitVal c := by simp only [digitVal]; omega
  have := le_digits_foldl t (0 * 10 + digitVal c)
  simp only [digitsVal, List.foldl_cons]
  omega

theorem natDigitsFuel_roundtrip : ∀ (l : List Char), l ≠ [] →
    (∀ c ∈ l, isAsciiDigit c = true) →
    (∀ t, l ≠ '0' :: t) →
    ∀ f, digitsVal l < f → natDigitsFuel f (digitsVal l) = l := by
  intro l
  induction l using List.reverseRecOn with
  | nil => intro h; exact absurd rfl h
  | append_singleton ys y ih =>
    intro _ hdig hhead f hf
    have hydig : isAsciiDigit y = true := hdig y (by simp)
    have hval : digitsVal (ys ++ [y]) = digitsVal ys * 10 + digitVal y := by
      simp [digitsVal, List.foldl_append]
    have hd9 : digitVal y ≤ 9 := by
      have := hydig
      simp only [isAsciiDigit, Bool.and_eq_true, decide_eq_true_eq] at this
      simp only [digitVal]; omega
    cases ys with
    | nil =>
      have hlt10 : digitsVal [y] < 10 := by
        simp only [digitsVal, List.foldl_cons, List.foldl_nil]
        omega
      cases f with
      | zero => omega
      | succ f' =>
        simp only [List.nil_append] at hval ⊢
        simp only [natDigitsFuel, if_pos hlt10]
        have hy0 : digitsVal [y] = digitVal y := by
          simp [digitsVal]
        rw [hy0, digitChar_digitVal hydig]
    | cons z zs =>
      have hzdig : isAsciiDigit z = true := hdig z (by simp)
      have hz0 : z ≠ '0' := by
        intro h
        exact hhead (zs ++ [y]) (by simp [h])
      have hv1 : 1 ≤ digitsVal (z :: zs) := one_le_digitsVal hzdig hz0
      have hge10 : ¬ (digitsVal ((z :: zs) ++ [y]) < 10) := by
        rw [hval]; omega
      cases f with
      | zero => omega
      | succ f' =>
        simp only [natDigitsFuel, if_neg hge10]
        have hdiv : digitsVal ((z :: zs) ++ [y]) / 10 = digitsVal (z :: zs) := by
          omega
        have hmod : digitsVal ((z :: zs) ++ [y]) % 10 = digitVal y := by
          omega
        rw [hdiv, hmod, digitChar_digitVal hydig,
          ih (by simp) (fun c hc => hdig c (by simp only [List.cons_append,
            List.mem_cons, List.mem_append] at hc ⊢; tauto))
            (fun t h => by cases h; exact absurd rfl hz0) f' (by omega)]

theorem parseUint_digits (w : Nat) (s : String)
    (h1 : s.data ≠ []) (h2 : ∀ c ∈ s.data, isAsciiDigit c = true)
    (h3 : digitsVal s.data < 2 ^ w) :
    parseUint w s = some (digitsVal s.data) := by
  unfold parseUint
  cases hd : s.data with
  | nil => exact absurd hd h1
  | cons c cs =>
    have hc : isAsciiDigit c = true := h2 c (by rw [hd]; simp)
    have hcp : c ≠ '+' := by
      intro h
      subst h
      simp [isAsciiDigit] at hc
    have hm : (match c :: cs with | '+' :: rest => rest | l => l) = c :: cs := by
      split
      · rename_i rest heq
        injection heq with hch _
        exact absurd hch hcp
      · rfl
    rw [hm]
    have hdig : ∀ x ∈ c :: cs, isAsciiDigit x = true := by
      intro x hx
      exact h2 x (by rw [hd]; exact hx)
    have hlt : List.foldl (fun x c => x * 10 + digitVal c) 0 (c :: cs) < 2 ^ w := by
      rw [hd] at h3
      simpa [digitsVal] using h3
    simpa only [digitsVal] using parseUintChars_eq_foldl (2 ^ w) (c :: cs) 0 hdig hlt

theorem uintToString_digits (s : String)
    (h2 : ∀ c ∈ s.data, isAsciiDigit c = true) :
    uintToString (digitsVal s.data) = stripLeadingZeros s := by
  unfold uintToString stripLeadingZeros
  cases hdw : s.data.dropWhile (fun c => c = '0') with
  | nil =>
    have h0 : digitsVal s.data = 0 := by
      rw [← digitsVal_dropWhile_zeros s.data, hdw]
      rfl
    rw [h0]
    rfl
  | cons c t =>
    have hcd : isAsciiDigit c = true := h2 c (mem_dropWhile _ _ (by rw [hdw]; simp))
    have hc0 : c ≠ '0' := by
      have := dropWhile_head_false _ _ _ hdw
      simpa using this
    have hval : digitsVal (c :: t) = digitsVal s.data := by
      rw [← hdw, digitsVal_dropWhile_zeros]
    rw [← hval]
    congr 1
    apply natDigitsFuel_roundtrip
    · simp
    · intro x hx
      exact h2 x (mem_dropWhile _ _ (hdw ▸ hx))
    · intro t' h
      cases h
      exact absurd rfl hc0
    · omega


/-! ### The claims -/

/-- C1: for every target type and every envelope with status `"0"` and message
exactly `"No transactions found"`, decoding does not fail: the decoder decodes
the `result` field with the target type's deserializer as normal and returns
the decoded value, never an error. -/
theorem claim_C1_empty_result_sentinel {τ : Type} (decT : Json → Except String τ)
    (rv : Json) (t : τ) (hdec : decT rv = .ok t) :
    decodeRest decT (.obj [("status", .str "0"),
      ("message", .str "No transactions found"), ("result", rv)]) =
      .ok ⟨.Failed, "No transactions found", t⟩ := by
  simp [decodeRest, visitMapRest, Json.asString, finalizeRest, hdec]

/-- Witness for C1: the spec's own example, an empty collection payload. -/
theorem claim_C1_empty_result_sentinel_witness :
    decodeRest decodeStringList (.obj [("status", .str "0"),
      ("message", .str "No transactions found"), ("result", .arr [])]) =
      .ok ⟨.Failed, "No transactions found", ([] : List String)⟩ :=
  claim_C1_empty_result_sentinel decodeStringList (.arr []) [] rfl

/-- C2: for every envelope with status `"0"` and message exactly `"NOTOK"`
followed by a further key/value entry, decoding fails with an error whose
message is the string value of the entry immediately following `message`,
whatever its key and whatever comes after it. -/
theorem claim_C2_notok_takes_next_entry {τ : Type} (decT : Json → Except String τ)
    (k v : String) (rest : List (String × Json)) :
    decodeRest decT (.obj (("status", .str "0") :: ("message", .str "NOTOK") ::
      (k, .str v) :: rest)) = .fail (.custom v) := by
  simp [decodeRest, visitMapRest, Json.asString]

/-- C3: for every envelope with status `"0"` and a message that is neither
`"No transactions found"` nor `"NOTOK"`, when `result` is reached it is read
as a plain string rather than with the target deserializer, and decoding
fails with exactly that string as the error message. -/
theorem claim_C3_failed_result_is_error_string {τ : Type}
    (decT : Json → Except String τ) (m r : String) (rest : List (String × Json))
    (h1 : m ≠ "No transactions found") (h2 : m ≠ "NOTOK") :
    decodeRest decT (.obj (("status", .str "0") :: ("message", .str m) ::
      ("result", .str r) :: rest)) = .fail (.custom r) := by
  simp [decodeRest, visitMapRest, Json.asString, h1, h2]

/-- Witness for C3: the spec's example envelope. -/
theorem claim_C3_failed_result_is_error_string_witness :
    decodeRest decodeString (.obj [("status", .str "0"),
      ("message", .str "some other failure"), ("result", .str "reason text")]) =
      .fail (.custom "reason text") :=
  claim_C3_failed_result_is_error_string decodeString "some other failure"
    "reason text" [] (by decide) (by decide)

/-- C4: for every JSON-RPC-shaped envelope carrying an `error` field, decoding
fails with an RPC error embedding the `code` and `message` of that field
verbatim, for every target deserializer — so `result` is never decoded as the
target type. -/
theorem claim_C4_rpc_error_classified {τ : Type} (decT : Json → Except String τ)
    (i : Int) (jr : String) (c : Int) (m : String)
    (hi1 : 0 ≤ i) (hi2 : i < 4294967296) (hc1 : -32768 ≤ c) (hc2 : c < 32768) :
    decodeProxy decT (.obj [("id", .num i), ("jsonrpc", .str jr),
      ("error", .obj [("code", .num c), ("message", .str m)])]) =
      .fail (.custom ("rpc error:" ++ RPCError.toJsonString ⟨c, m⟩)) := by
  simp [decodeProxy, visitMapProxy, Json.asString, Json.asU32, decodeRPCError,
    visitMapRPCError, hi1, hi2, hc1, hc2]

/-- Witness for C4: the spec's example RPC failure. -/
theorem claim_C4_rpc_error_classified_witness :
    decodeProxy decodeString (.obj [("id", .num 1), ("jsonrpc", .str "2.0"),
      ("error", .obj [("code", .num (-32000)), ("message", .str "gas too low")])]) =
      .fail (.custom "rpc error:\x7b\"code\":-32000,\"message\":\"gas too low\"\x7d") := by
  have h := claim_C4_rpc_error_classified decodeString 1 "2.0" (-32000) "gas too low"
    (by decide) (by decide) (by decide) (by decide)
  have e : "rpc error:" ++ RPCError.toJsonString ⟨-32000, "gas too low"⟩ =
      "rpc error:\x7b\"code\":-32000,\"message\":\"gas too low\"\x7d" := by decide
  rw [e] at h
  exact h

/-- C5 (code bug): the claim says that a status string other than `"0"` or
`"1"` yields a decode error rather than an abort, but both visitors instead
hit the `panic!("Unknown value: ...")` arm: on `status = "2"` the REST and the
proxy decoders abort instead of returning an error value. -/
theorem claim_C5_unknown_status_panics :
    decodeRest decodeString (.obj [("status", .str "2"), ("message", .str "OK"),
      ("result", .str "x")]) = .panicked "Unknown value: 2" ∧
    decodeProxy decodeString (.obj [("id", .num 1), ("jsonrpc", .str "2.0"),
      ("status", .str "2"), ("result", .str "x")]) = .panicked "Unknown value: 2" := by
  decide

/-- Counterexample to C6: a success envelope (status `"1"`, no RPC error)
whose `result` entry precedes `status` is NOT tolerated by the REST decoder —
it fails with the custom error `"status not deserialised yet"` even though
the payload decodes fine. -/
theorem claim_C6_result_before_status_counterexample :
    decodeRest decodeString (.obj [("result", .str "r"), ("status", .str "1"),
      ("message", .str "OK")]) = .fail (.custom "status not deserialised yet") := by
  decide

/-- C6 as amended: whenever `result` arrives before `status` the REST decoder
rejects the envelope with the decode error `"status not deserialised yet"`,
success status notwithstanding, for every target deserializer. -/
theorem claim_C6_result_before_status_rejected {τ : Type}
    (decT : Json → Except String τ) (rv : Json) (m : String)
    (rest : List (String × Json)) :
    decodeRest decT (.obj (("result", rv) :: ("status", .str "1") ::
      ("message", .str m) :: rest)) = .fail (.custom "status not deserialised yet") := by
  simp [decodeRest, visitMapRest]

/-- C7: for every decimal digit string representing a value within the target
width, the decimal-to-uint coercion succeeds with that value, and converting
it back to a string returns the input modulo leading zeros. -/
theorem claim_C7_decimal_uint_roundtrip (w : Nat) (s : String)
    (h1 : s.data ≠ []) (h2 : ∀ c ∈ s.data, isAsciiDigit c = true)
    (h3 : digitsVal s.data < 2 ^ w) :
    deUintFromStr w (Json.str s) = .ok (digitsVal s.data) ∧
    uintToString (digitsVal s.data) = stripLeadingZeros s := by
  have hp := parseUint_digits w s h1 h2 h3
  constructor
  · simp [deUintFromStr, Json.asString, hp]
  · exact uintToString_digits s h2

/-- Witness for C7 at width 64, with a leading zero exercising the
"modulo leading zeros" clause. -/
theorem claim_C7_decimal_uint_roundtrip_witness :
    deUintFromStr 64 (Json.str "0123") = .ok 123 ∧ uintToString 123 = "123" := by
  have h := claim_C7_decimal_uint_roundtrip 64 "0123" (by decide) (by decide) (by decide)
  have e1 : digitsVal "0123".data = 123 := by decide
  have e2 : stripLeadingZeros "0123" = "123" := by decide
  rw [e1, e2] at h
  exact h

/-- Counterexample to C8: the claim says any string other than `"0"`/`"1"`
makes the boolean coercion fail, but `de_bool_from_str` maps `"2"` to
`Ok(false)` rather than an error. -/
theorem claim_C8_bool_strict_counterexample : deBoolFromStr (.str "2") = .ok false :=
  rfl

/-- C8 as amended: the boolean coercion is the lenient variant — `"1"` decodes
to `true` and every other string (including `"0"`) decodes to `false`; it
never fails on a string input. -/
theorem claim_C8_bool_coercion_lenient (s : String) :
    deBoolFromStr (.str s) = .ok (s == "1") :=
  rfl

/-- C9: for every list of more than 20 addresses, `balances` returns
`TooManyAddresses` immediately — uniformly in the transport/decode oracle, so
no HTTP request or decode can influence (or be required for) the outcome. -/
theorem claim_C9_too_many_addresses
    (fetch : List (String × String) → Except APIError (List Balance))
    (addresses : List String) (tag : Option Tag) (h : addresses.length > 20) :
    balances fetch addresses tag = .error .TooManyAddresses := by
  simp [balances, h]

/-- Witness for C9: 21 addresses short-circuit even with a fetch oracle that
would succeed. -/
theorem claim_C9_too_many_addresses_witness :
    balances (fun _ => .ok []) (List.replicate 21 "0x0") none =
      .error .TooManyAddresses :=
  claim_C9_too_many_addresses (fun _ => .ok []) (List.replicate 21 "0x0") none
    (by decide)

/-- C10: when the envelope decode succeeds but the decoded result string is
not a valid decimal numeral for the target width, `Accounts::balance` and
`GasTracker::estimate_time` both return `Ok(0)` — the parse failure is
silently replaced by zero. -/
theorem claim_C10_parse_failure_becomes_zero
    (fetch fetch2 : List (String × String) → Except APIError String)
    (address : String) (tag : Option Tag) (gasPrice : Nat) (v v2 : String)
    (hb : fetch (balanceParameters address tag) = .ok v)
    (hv : parseUint 128 v = none)
    (he : fetch2 (estimateTimeParameters gasPrice) = .ok v2)
    (hv2 : parseUint 64 v2 = none) :
    balance fetch address tag = .ok 0 ∧ estimateTime fetch2 gasPrice = .ok 0 := by
  constructor
  · simp [balance, hb, hv, Except.map]
  · simp [estimateTime, he, hv2]

/-- Witness for C10: a non-numeric result string yields `Ok(0)` from both
endpoints. -/
theorem claim_C10_parse_failure_becomes_zero_witness :
    balance (fun _ => .ok "nope") "0x0" none = .ok 0 ∧
    estimateTime (fun _ => .ok "nope") 5 = .ok 0 :=
  claim_C10_parse_failure_becomes_zero (fun _ => .ok "nope") (fun _ => .ok "nope")
    "0x0" none 5 "nope" "nope" rfl (by decide) rfl (by decide)

end Etherscan
